import Mathlib

/-!
Shallow embedding of the T3N Mail multi-provider temp-mail core
(`TempMailManager` and its helpers).  Network calls, `Math.random`
draws and wall-clock reads are modelled as explicit inputs (oracles);
machine state is passed explicitly.  Every definition mirrors one
source function and keeps its name where Lean allows it.
-/

set_option maxHeartbeats 1000000

/- CONFIG constants from the source `CONFIG` object. -/
namespace CONFIG

def MAX_RETRIES : Nat := 3

def RETRY_DELAY : Nat := 1000

def RETRY_MULTIPLIER : Nat := 2

def DEFAULT_REFRESH_INTERVAL : Nat := 3000

def MIN_REFRESH_INTERVAL : Nat := 2000

def MAX_REFRESH_INTERVAL : Nat := 10000

def REQUEST_TIMEOUT : Nat := 10000

def CACHE_DURATION : Nat := 2000

end CONFIG

/-- A JavaScript exception value; the source only ever inspects the
`name` property of a caught error (in `fetchWithRetry`). -/
structure JsError where
  name : String
deriving DecidableEq

/-- JS truthiness of an optional string field: `undefined`/`null` and
the empty string are falsy, every other string is truthy. -/
def strTruthy : Option String → Bool
  | none => false
  | some s => s != ""

/-- JS `a || b` on optional string values: keep `a` when truthy,
otherwise evaluate to `b` (even when `b` itself is falsy). -/
def jsOr (a b : Option String) : Option String :=
  if strTruthy a then a else b

/-- `text.split(sep)` for a one-character separator, on char lists
(JS `String.prototype.split` semantics; result is never empty). -/
def splitChar (sep : Char) : List Char → List (List Char)
  | [] => [[]]
  | c :: cs =>
    let rest := splitChar sep cs
    if c == sep then [] :: rest
    else
      match rest with
      | [] => [[c]]
      | g :: gs => (c :: g) :: gs

/-- Split a char list at its last dot: `some (before, after)` when a
dot occurs, `none` otherwise. -/
def splitLastDot : List Char → Option (List Char × List Char)
  | [] => none
  | c :: cs =>
    match splitLastDot cs with
    | some (m, t) => some (c :: m, t)
    | none => if c == '.' then some ([], cs) else none

/-- Does `sub` occur at the head of `l`? -/
def listStartsWith : List Char → List Char → Bool
  | [], _ => true
  | _ :: _, [] => false
  | a :: as_, b :: bs => a == b && listStartsWith as_ bs

/-- Does `sub` occur contiguously anywhere in `l`? -/
def listContainsSeq (sub : List Char) : List Char → Bool
  | [] => listStartsWith sub []
  | c :: cs => listStartsWith sub (c :: cs) || listContainsSeq sub cs

/-- JS `s.includes(sub)` (substring containment), as used on
`error.name` in `fetchWithRetry`. -/
def strIncludes (s sub : String) : Bool :=
  listContainsSeq sub.data s.data

/-- A character allowed in the local part of the source email regex
character class `[a-zA-Z0-9._%+-]`. -/
def isLocalChar (c : Char) : Bool :=
  c.isAlphanum || c == '.' || c == '_' || c == '%' || c == '+' || c == '-'

/-- A character allowed in the domain body of the source email regex
character class `[a-zA-Z0-9.-]`. -/
def isDomainChar (c : Char) : Bool :=
  c.isAlphanum || c == '.' || c == '-'

/-- `isValidEmail` — the regex
`/^[a-zA-Z0-9._%+-]+@[a-zA-Z0-9.-]+\.[a-zA-Z]\x7b2,\x7d$/` rendered
structurally: exactly one `@` (no allowed class contains `@`), a
nonempty local part, and a domain whose final dot is followed by an
alphabetic label of length at least 2 (the dot chosen by the regex
must be the last one, since the trailing label admits no dot). -/
def isValidEmail (email : String) : Bool :=
  match splitChar '@' email.data with
  | [localPart, domainPart] =>
    !localPart.isEmpty && localPart.all isLocalChar &&
    (match splitLastDot domainPart with
     | some (mid, tld) =>
       !mid.isEmpty && mid.all isDomainChar &&
       decide (2 ≤ tld.length) && tld.all Char.isAlpha
     | none => false)
  | _ => false

/-- The lowercase alphabet used by `generateRandomString`. -/
def letters : List Char := "abcdefghijklmnopqrstuvwxyz".data

/-- The digits optionally appended to the alphabet in
`generateRandomString`. -/
def numberChars : List Char := "0123456789".data

/-- `generateRandomString(length, includeNumbers)`.  The stream of
`Math.floor(Math.random() * n)` draws is modelled by `rand`, reduced
into range with `% n`; the first character is always drawn from the
letters alone. -/
def generateRandomString (len : Nat) (includeNumbers : Bool) (rand : Nat → Nat) : String :=
  let chars := if includeNumbers then letters ++ numberChars else letters
  String.mk (letters.getD (rand 0 % letters.length) 'a' ::
    (List.range (len - 1)).map (fun i => chars.getD (rand (i + 1) % chars.length) 'a'))

/-- The observable outcome of one `fetch` attempt inside
`fetchWithRetry`: the promise resolves with some HTTP status, or it
rejects with an error of some name (connection failures reject with a
`TypeError`), or the request-timeout fires first — the source then
runs `controller.abort()`, so the attempt rejects with a `DOMException`
named `AbortError`. -/
inductive AttemptOutcome
  | resolved (status : Nat)
  | rejected (errName : String)
  | timedOut
deriving DecidableEq

/-- The error (if any) raised by the `try` block of `fetchWithRetry`
for one attempt: a resolved response with a non-2xx status throws
`new Error` (name `Error`); rejections re-raise their error; a
timeout surfaces as the abort error. -/
def attemptError : AttemptOutcome → Option JsError
  | .resolved s => if 200 ≤ s ∧ s < 300 then none else some { name := "Error" }
  | .rejected n => some { name := n }
  | .timedOut => some { name := "AbortError" }

/-- The status of a resolved attempt (unused on other outcomes). -/
def resolvedStatus : AttemptOutcome → Nat
  | .resolved s => s
  | _ => 0

/-- `fetchWithRetry(url, options, retries)` over a stream `oc` of
per-attempt outcomes (`oc k` is attempt `k`).  Returns the final
result (response status or error) paired with the list of backoff
sleeps performed, in order.  An error is retried exactly when
`retries > 0` and its name does not contain `Abort`; the backoff
before the next attempt is
`RETRY_DELAY * RETRY_MULTIPLIER ^ (MAX_RETRIES - retries)`.  (The
source never calls it with `retries` above `MAX_RETRIES`.) -/
def fetchWithRetryGo (oc : Nat → AttemptOutcome) : Nat → Nat → Except JsError Nat × List Nat
  | retries, attempt =>
    match attemptError (oc attempt) with
    | none => (Except.ok (resolvedStatus (oc attempt)), [])
    | some e =>
      match retries with
      | 0 => (Except.error e, [])
      | rr + 1 =>
        if strIncludes e.name "Abort" then (Except.error e, [])
        else
          let rest := fetchWithRetryGo oc rr (attempt + 1)
          (rest.1,
            (CONFIG.RETRY_DELAY * CONFIG.RETRY_MULTIPLIER ^ (CONFIG.MAX_RETRIES - (rr + 1)))
              :: rest.2)

/-- `fetchWithRetry` entry point, starting at attempt 0. -/
def fetchWithRetry (oc : Nat → AttemptOutcome) (retries : Nat := CONFIG.MAX_RETRIES) :
    Except JsError Nat × List Nat :=
  fetchWithRetryGo oc retries 0

/-- The three providers, in the fixed priority order
`['secmail', 'mailtm', 'guerrilla']` used by `initialize` and
`createEmail`. -/
inductive ProviderName
  | secmail
  | mailtm
  | guerrilla
deriving DecidableEq

/-- The priority walk order of `TempMailManager`. -/
def providerOrder : List ProviderName :=
  [ProviderName.secmail, ProviderName.mailtm, ProviderName.guerrilla]

/-- The fields of a provider `createEmail()` result that the manager
reads (`result.login`, `result.domain`, `result.email`); adapters may
also return a password or token, which the manager never inspects. -/
structure CreateResult where
  login : String
  domain : String
  email : String
deriving DecidableEq

/-- One provider-native message record from a listing call, with every
alternate field name `normalizeMessages` probes.  All values are taken
as strings; an absent JS property is `none`.  `from_` models the JS
property `from`, `atId` the property `@id`. -/
structure NativeMsg where
  id : Option String := none
  mail_id : Option String := none
  atId : Option String := none
  from_ : Option String := none
  mail_from : Option String := none
  fromAddress : Option String := none
  subject : Option String := none
  mail_subject : Option String := none
  date : Option String := none
  mail_timestamp : Option String := none
  createdAt : Option String := none
  textBody : Option String := none
  mail_excerpt : Option String := none
deriving DecidableEq

/-- One provider-native single-message record, with every alternate
field name the `getMessage` normalization probes. -/
structure NativeDetail where
  id : Option String := none
  from_ : Option String := none
  mail_from : Option String := none
  fromAddress : Option String := none
  subject : Option String := none
  mail_subject : Option String := none
  date : Option String := none
  mail_timestamp : Option String := none
  createdAt : Option String := none
  body : Option String := none
  mail_body : Option String := none
  text : Option String := none
  textBody : Option String := none
  htmlBody : Option String := none
  html : Option String := none
  attachments : Option (List String) := none
deriving DecidableEq

/-- Canonical message summary produced by `normalizeMessages`. -/
structure MessageSummary where
  id : Option String
  from_ : Option String
  subject : Option String
  date : Option String
  preview : Option String
deriving DecidableEq

/-- Canonical message detail produced and cached by `getMessage`. -/
structure MessageDetail where
  id : Option String
  from_ : Option String
  subject : Option String
  date : Option String
  body : Option String
  textBody : Option String
  htmlBody : Option String
  attachments : List String
deriving DecidableEq

/-- The fixed placeholder subject `'(بدون عنوان)'`. -/
def subjectFallback : String := "(بدون عنوان)"

/-- The last segment of `s.split('/')` (JS `.split('/').pop()`). -/
def lastSlashSegment (s : String) : String :=
  String.mk ((splitChar '/' s.data).getLastD [])

/-- JS `msg.textBody?.substring(0, 100)`. -/
def previewOfTextBody (tb : Option String) : Option String :=
  tb.map (fun s => String.mk (s.data.take 100))

/-- `normalizeMessages`'s per-record mapping (the body of its
`messages.map`). -/
def normalizeMessage (msg : NativeMsg) : MessageSummary :=
  { id := jsOr (jsOr msg.id msg.mail_id) (msg.atId.map lastSlashSegment)
  , from_ := jsOr (jsOr msg.from_ msg.mail_from) msg.fromAddress
  , subject := jsOr (jsOr msg.subject msg.mail_subject) (some subjectFallback)
  , date := jsOr (jsOr msg.date msg.mail_timestamp) msg.createdAt
  , preview := jsOr (jsOr (previewOfTextBody msg.textBody) msg.mail_excerpt) (some "") }

/-- `TempMailManager.normalizeMessages`: a non-array payload (`none`)
yields `[]`; an array is mapped record by record. -/
def normalizeMessages : Option (List NativeMsg) → List MessageSummary
  | none => []
  | some msgs => msgs.map normalizeMessage

/-- The normalization performed inside `TempMailManager.getMessage`
on a truthy provider record (`messageId` is the requested id, used
when the record itself carries no `id`; a missing `attachments` array
defaults to `[]`, and a present one — even empty — is kept, since JS
arrays are always truthy). -/
def normalizeDetail (message : NativeDetail) (messageId : String) : MessageDetail :=
  { id := jsOr message.id (some messageId)
  , from_ := jsOr (jsOr message.from_ message.mail_from) message.fromAddress
  , subject := jsOr (jsOr message.subject message.mail_subject) (some subjectFallback)
  , date := jsOr (jsOr message.date message.mail_timestamp) message.createdAt
  , body := jsOr (jsOr message.body message.mail_body) message.text
  , textBody := jsOr (jsOr message.textBody message.body) message.mail_body
  , htmlBody := jsOr (jsOr message.htmlBody message.html) none
  , attachments := message.attachments.getD [] }

/-- The mutable state of a `TempMailManager` instance; defaults are
the constructor's initial values.  The `refreshInterval` timer handle
carries no decision logic and is not modelled.  `messageCache` models
the `Map` as an association list with unique keys. -/
structure ManagerState where
  currentProvider : Option ProviderName := none
  email : Option String := none
  login : Option String := none
  domain : Option String := none
  messages : List MessageSummary := []
  messageCache : List (String × MessageDetail) := []
  lastRefresh : Nat := 0
  emailsCreated : Nat := 0
  messagesReceived : Nat := 0
  providerSwitches : Nat := 0
deriving DecidableEq

/-- `Map.prototype.get`/`has` on the modelled `messageCache`. -/
def lookupCache (c : List (String × MessageDetail)) (k : String) : Option MessageDetail :=
  (c.find? (fun p => p.1 == k)).map (fun p => p.2)

/-- `Map.prototype.set` on the modelled `messageCache` (insert or
replace, keys kept unique). -/
def insertCache (c : List (String × MessageDetail)) (k : String) (v : MessageDetail) :
    List (String × MessageDetail) :=
  (k, v) :: c.filter (fun p => p.1 != k)

/-- `TempMailManager.initialize`: walk the priority order, pin the
first provider whose `checkHealth()` reports healthy (`health` is the
probe oracle; a probe that throws is caught and treated as unhealthy),
and fall back to secmail when none does. -/
def initMgr (st : ManagerState) (health : ProviderName → Bool) : ManagerState :=
  match providerOrder.find? (fun p => health p) with
  | some p => { st with currentProvider := some p }
  | none =>
    if st.currentProvider.isNone then { st with currentProvider := some ProviderName.secmail }
    else st

/-- Which way `createEmail` produced its address: via a provider's
successful, shape-valid result, or via the local synthetic fallback. -/
inductive CreateOutcome
  | viaProvider (p : ProviderName)
  | synthetic
deriving DecidableEq

/-- The observable result of `createEmail`: the returned address, the
path taken, the providers whose `createEmail()` was dispatched (in
order — the only network activity of the walk), and the final manager
state. -/
structure CreateRes where
  email : String
  outcome : CreateOutcome
  attempts : List ProviderName
  state : ManagerState
deriving DecidableEq

/-- The provider walk of `TempMailManager.createEmail` (its `for`
loop plus the ultimate local fallback).  `o p` is the outcome of
`provider.createEmail()` for provider `p` (`Except.error` when it
throws); `rand` feeds `generateRandomString` in the fallback.  A
thrown attempt bumps `providerSwitches` and falls through; a returned
result with a falsy or shape-invalid address falls through without
touching the counter; a valid result pins the provider, replaces the
identity, clears `messages` and `messageCache`, and bumps
`emailsCreated`.  The fallback synthesizes `login@1secmail.com`, pins
secmail and touches nothing else. -/
def createWalkAux (st : ManagerState) (o : ProviderName → Except JsError CreateResult)
    (rand : Nat → Nat) : List ProviderName → CreateRes
  | [] =>
    let lg := generateRandomString 12 true rand
    let dom := "1secmail.com"
    let em := lg ++ "@" ++ dom
    { email := em
    , outcome := CreateOutcome.synthetic
    , attempts := []
    , state := { st with
                 login := some lg
                 domain := some dom
                 email := some em
                 currentProvider := some ProviderName.secmail } }
  | p :: rest =>
    match o p with
    | Except.ok r =>
      if r.email != "" && isValidEmail r.email then
        { email := r.email
        , outcome := CreateOutcome.viaProvider p
        , attempts := [p]
        , state := { st with
                     currentProvider := some p
                     email := some r.email
                     login := some r.login
                     domain := some r.domain
                     messages := []
                     messageCache := []
                     emailsCreated := st.emailsCreated + 1 } }
      else
        let res := createWalkAux st o rand rest
        { res with attempts := p :: res.attempts }
    | Except.error _ =>
      let res :=
        createWalkAux { st with providerSwitches := st.providerSwitches + 1 } o rand rest
      { res with attempts := p :: res.attempts }

/-- `TempMailManager.createEmail`: run `initialize` first when no
provider is pinned, then walk the priority order. -/
def createEmailM (st : ManagerState) (health : ProviderName → Bool)
    (o : ProviderName → Except JsError CreateResult) (rand : Nat → Nat) : CreateRes :=
  let st1 := if st.currentProvider.isNone then initMgr st health else st
  createWalkAux st1 o rand providerOrder

/-- `TempMailManager.refreshEmail`: stop auto-refresh (timer only, no
modelled state), clear `messages` and `messageCache`, then run
`createEmail` again. -/
def refreshEmailM (st : ManagerState) (health : ProviderName → Bool)
    (o : ProviderName → Except JsError CreateResult) (rand : Nat → Nat) : CreateRes :=
  createEmailM { st with messages := [], messageCache := [] } health o rand

/-- Result of `TempMailManager.getMessages`: the returned summary
list, the new state, and whether the pinned provider's native listing
call was dispatched. -/
structure ListRes where
  result : List MessageSummary
  state : ManagerState
  fetched : Bool
deriving DecidableEq

/-- `TempMailManager.getMessages` at wall-clock `now`.  Within
`CACHE_DURATION` of `lastRefresh` it returns the stored summaries
untouched; otherwise it stamps `lastRefresh`, returns `[]` when no
provider is pinned or login/domain are falsy, and else dispatches the
pinned provider's listing call (`oracle`; `Except.error` when it
throws): on success the normalized list replaces `messages` and is
returned, on failure the previous `messages` are returned unchanged. -/
def getMessagesM (st : ManagerState) (now : Nat)
    (oracle : Except JsError (Option (List NativeMsg))) : ListRes :=
  if now - st.lastRefresh < CONFIG.CACHE_DURATION then
    { result := st.messages, state := st, fetched := false }
  else
    let st1 := { st with lastRefresh := now }
    if st1.currentProvider.isNone || !strTruthy st1.login || !strTruthy st1.domain then
      { result := [], state := st1, fetched := false }
    else
      match oracle with
      | Except.ok payload =>
        let norm := normalizeMessages payload
        { result := norm, state := { st1 with messages := norm }, fetched := true }
      | Except.error _ =>
        { result := st1.messages, state := st1, fetched := true }

/-- Result of `TempMailManager.getMessage`: the returned detail (or
`null`), the new state, and whether the pinned provider's native
fetch was dispatched. -/
structure GetMsgRes where
  result : Option MessageDetail
  state : ManagerState
  fetched : Bool
deriving DecidableEq

/-- `TempMailManager.getMessage(messageId)`.  A `messageCache` hit is
returned as is; with no pinned provider the call returns `null`;
otherwise the provider fetch (`oracle`) runs: a thrown fetch or a
falsy record yields `null` with nothing cached, a truthy record is
normalized, cached under `messageId`, counted in `messagesReceived`
and returned. -/
def getMessageM (st : ManagerState) (messageId : String)
    (oracle : Except JsError (Option NativeDetail)) : GetMsgRes :=
  match lookupCache st.messageCache messageId with
  | some d => { result := some d, state := st, fetched := false }
  | none =>
    if st.currentProvider.isNone then
      { result := none, state := st, fetched := false }
    else
      match oracle with
      | Except.error _ => { result := none, state := st, fetched := true }
      | Except.ok none => { result := none, state := st, fetched := true }
      | Except.ok (some message) =>
        let normalized := normalizeDetail message messageId
        { result := some normalized
        , state := { st with
                     messageCache := insertCache st.messageCache messageId normalized
                     messagesReceived := st.messagesReceived + 1 }
        , fetched := true }

/-- `TempMailManager.isReady`: `!!this.email && !!this.currentProvider`. -/
def isReady (st : ManagerState) : Bool :=
  strTruthy st.email && st.currentProvider.isSome

/- Concrete fixtures used by witnesses and counterexamples. -/

/-- A manager state as left by a successful earlier `createEmail`:
secmail pinned, identity `oldlogin@1secmail.com`, empty caches,
counters at their post-creation values. -/
def stReady : ManagerState :=
  { currentProvider := some ProviderName.secmail
    email := some "oldlogin@1secmail.com"
    login := some "oldlogin"
    domain := some "1secmail.com"
    emailsCreated := 1 }

/-- A connection failure (`fetch` rejects with a `TypeError`). -/
def errTypeError : JsError := { name := "TypeError" }

/-- Every provider's `createEmail()` throws. -/
def oracleAllFail : ProviderName → Except JsError CreateResult :=
  fun _ => Except.error errTypeError

/-- A shape-valid mail.tm creation result. -/
def goodResult : CreateResult :=
  { login := "abcdef", domain := "mail.tm", email := "abcdef@mail.tm" }

/-- secmail and mail.tm throw, guerrillamail succeeds. -/
def oracleTwoFail : ProviderName → Except JsError CreateResult
  | ProviderName.secmail => Except.error errTypeError
  | ProviderName.mailtm => Except.error { name := "Error" }
  | ProviderName.guerrilla => Except.ok goodResult

/-- secmail returns a record whose address fails the email-shape
predicate (without throwing); mail.tm succeeds; guerrillamail throws. -/
def oracleJunkFirst : ProviderName → Except JsError CreateResult
  | ProviderName.secmail => Except.ok { login := "x", domain := "y", email := "not-an-email" }
  | ProviderName.mailtm => Except.ok goodResult
  | ProviderName.guerrilla => Except.error errTypeError

/-- secmail throws, mail.tm succeeds. -/
def oracleMailtmOk : ProviderName → Except JsError CreateResult
  | ProviderName.secmail => Except.error errTypeError
  | ProviderName.mailtm => Except.ok goodResult
  | ProviderName.guerrilla => Except.error errTypeError

/-- All health probes report healthy. -/
def healthAll : ProviderName → Bool := fun _ => true

/-- A degenerate randomness stream (every draw is 0). -/
def randZero : Nat → Nat := fun _ => 0

/-- A provider-native single-message record carrying a subject and a
body. -/
def detailNative : NativeDetail := { subject := some "hello", body := some "world" }

/-- A successful listing call returning an empty array. -/
def okEmptyList : Except JsError (Option (List NativeMsg)) := Except.ok (some [])

/-- Attempt stream: the first attempt times out (the source's timeout
aborts the request), every later attempt would succeed. -/
def ocTimeoutFirst : Nat → AttemptOutcome :=
  fun n => if n == 0 then AttemptOutcome.timedOut else AttemptOutcome.resolved 200

/-- Attempt stream: every attempt is a connection failure. -/
def ocConnFail : Nat → AttemptOutcome := fun _ => AttemptOutcome.rejected "TypeError"

/-- Attempt stream: two connection failures, then a 200 response. -/
def ocFlaky : Nat → AttemptOutcome :=
  fun n => if n < 2 then AttemptOutcome.rejected "TypeError" else AttemptOutcome.resolved 200

/-- The all-defaults (entirely absent) provider-native record. -/
def emptyNativeMsg : NativeMsg := {}

/- Helper lemmas. -/

/-- Unfolding `fetchWithRetryGo` on a successful attempt. -/
theorem fetchGo_ok (oc : Nat → AttemptOutcome) (retries attempt : Nat)
    (h : attemptError (oc attempt) = none) :
    fetchWithRetryGo oc retries attempt = (Except.ok (resolvedStatus (oc attempt)), []) := by
  unfold fetchWithRetryGo
  rw [h]

/-- Unfolding `fetchWithRetryGo` with no retries left. -/
theorem fetchGo_err_zero (oc : Nat → AttemptOutcome) (attempt : Nat) (e : JsError)
    (h : attemptError (oc attempt) = some e) :
    fetchWithRetryGo oc 0 attempt = (Except.error e, []) := by
  unfold fetchWithRetryGo
  rw [h]

/-- Unfolding `fetchWithRetryGo` on an abort-named error: propagate
immediately. -/
theorem fetchGo_err_abort (oc : Nat → AttemptOutcome) (rr attempt : Nat) (e : JsError)
    (h : attemptError (oc attempt) = some e) (ha : strIncludes e.name "Abort" = true) :
    fetchWithRetryGo oc (rr + 1) attempt = (Except.error e, []) := by
  unfold fetchWithRetryGo
  rw [h]
  simp [ha]

/-- Unfolding `fetchWithRetryGo` on a retryable error: sleep the
backoff delay and recurse. -/
theorem fetchGo_err_retry (oc : Nat → AttemptOutcome) (rr attempt : Nat) (e : JsError)
    (h : attemptError (oc attempt) = some e) (ha : strIncludes e.name "Abort" = false) :
    fetchWithRetryGo oc (rr + 1) attempt =
      ((fetchWithRetryGo oc rr (attempt + 1)).1,
        (CONFIG.RETRY_DELAY * CONFIG.RETRY_MULTIPLIER ^ (CONFIG.MAX_RETRIES - (rr + 1)))
          :: (fetchWithRetryGo oc rr (attempt + 1)).2) := by
  conv_lhs => rw [fetchWithRetryGo]
  rw [h]
  simp [ha]

/-- C7: with the default three attempts, two retryable failures
followed by a 2xx response yield the successful response after
exactly two backoff sleeps, of 1000 then 2000 time-units. -/
theorem C7_two_failures_then_success (oc : Nat → AttemptOutcome) (e1 e2 : JsError) (s : Nat)
    (h0 : attemptError (oc 0) = some e1) (h0a : strIncludes e1.name "Abort" = false)
    (h1 : attemptError (oc 1) = some e2) (h1a : strIncludes e2.name "Abort" = false)
    (h2 : oc 2 = AttemptOutcome.resolved s) (hs : 200 ≤ s) (hs' : s < 300) :
    fetchWithRetry oc 3 = (Except.ok s, [1000, 2000]) := by
  have h2e : attemptError (oc 2) = none := by
    rw [h2]
    simp [attemptError, hs, hs']
  have e3 : (3 : Nat) = 2 + 1 := rfl
  have e2' : (2 : Nat) = 1 + 1 := rfl
  show fetchWithRetryGo oc 3 0 = _
  rw [e3, fetchGo_err_retry oc 2 0 e1 h0 h0a]
  rw [e2', fetchGo_err_retry oc 1 1 e2 h1 h1a]
  rw [fetchGo_ok oc 1 2 h2e, h2]
  simp [resolvedStatus, CONFIG.RETRY_DELAY, CONFIG.RETRY_MULTIPLIER, CONFIG.MAX_RETRIES]

/-- C7 witness: the concrete stream with two connection failures then
a 200 response. -/
theorem C7_witness : fetchWithRetry ocFlaky 3 = (Except.ok 200, [1000, 2000]) :=
  C7_two_failures_then_success ocFlaky { name := "TypeError" } { name := "TypeError" } 200
    rfl (by decide) rfl (by decide) rfl (by decide) (by decide)

/-- C6 counterexample: a timeout-triggered failure on the first
attempt (the source timeout runs `controller.abort()`, so the attempt
rejects with an `AbortError`) is NOT retried even though attempts
remain and the next attempt would return 200 — `fetchWithRetry`
propagates the abort error immediately, with no backoff sleeps. -/
theorem C6_counterexample :
    fetchWithRetry ocTimeoutFirst 3 = (Except.error { name := "AbortError" }, []) := rfl

/-- C6 as amended: the retry exemption is decided solely by the error
name containing `Abort`; since the timeout itself aborts the request,
timeout-triggered failures fall in the non-retried class together
with explicit aborts, while all other failures (connection errors,
non-2xx responses) are retried while attempts remain, with the
exponential backoff delay. -/
theorem C6_abort_named_errors_not_retried (oc : Nat → AttemptOutcome) (r : Nat) (e : JsError)
    (h : attemptError (oc 0) = some e) :
    (strIncludes e.name "Abort" = true → fetchWithRetry oc r = (Except.error e, [])) ∧
    (strIncludes e.name "Abort" = false → 0 < r →
      fetchWithRetry oc r =
        ((fetchWithRetryGo oc (r - 1) 1).1,
          (CONFIG.RETRY_DELAY * CONFIG.RETRY_MULTIPLIER ^ (CONFIG.MAX_RETRIES - r))
            :: (fetchWithRetryGo oc (r - 1) 1).2)) ∧
    attemptError AttemptOutcome.timedOut = some { name := "AbortError" } ∧
    strIncludes "AbortError" "Abort" = true := by
  refine ⟨?_, ?_, rfl, by decide⟩
  · intro ha
    show fetchWithRetryGo oc r 0 = _
    cases r with
    | zero => exact fetchGo_err_zero oc 0 e h
    | succ rr => exact fetchGo_err_abort oc rr 0 e h ha
  · intro ha hr
    show fetchWithRetryGo oc r 0 = _
    cases r with
    | zero => exact absurd hr (by omega)
    | succ rr => simpa using fetchGo_err_retry oc rr 0 e h ha

/-- C6 witness: a connection failure with 2 attempts remaining is
retried; the abort-name class is exactly the non-retried one. -/
theorem C6_witness :
    (strIncludes (JsError.mk "TypeError").name "Abort" = true →
      fetchWithRetry ocConnFail 2 = (Except.error (JsError.mk "TypeError"), [])) ∧
    (strIncludes (JsError.mk "TypeError").name "Abort" = false → 0 < 2 →
      fetchWithRetry ocConnFail 2 =
        ((fetchWithRetryGo ocConnFail (2 - 1) 1).1,
          (CONFIG.RETRY_DELAY * CONFIG.RETRY_MULTIPLIER ^ (CONFIG.MAX_RETRIES - 2))
            :: (fetchWithRetryGo ocConnFail (2 - 1) 1).2)) ∧
    attemptError AttemptOutcome.timedOut = some { name := "AbortError" } ∧
    strIncludes "AbortError" "Abort" = true :=
  C6_abort_named_errors_not_retried ocConnFail 2 (JsError.mk "TypeError") rfl

/-- Every entry of the `generateRandomString` alphabet is alphabetic. -/
theorem lettersAlpha : ∀ i, i < 26 → (letters.getD i 'a').isAlpha = true := by decide

/-- A generated login of positive requested length has exactly that
length. -/
theorem generateRandomString_length (len : Nat) (inc : Bool) (rand : Nat → Nat)
    (h : 0 < len) : (generateRandomString len inc rand).length = len := by
  simp [generateRandomString, String.length]
  omega

/-- A generated login starts with an alphabetic character. -/
theorem generateRandomString_head (len : Nat) (inc : Bool) (rand : Nat → Nat) :
    ∃ c cs, (generateRandomString len inc rand).data = c :: cs ∧ c.isAlpha = true := by
  refine ⟨_, _, rfl, ?_⟩
  apply lettersAlpha
  exact Nat.mod_lt _ (by decide)

/-- String concatenation acts as list concatenation on the character
data. -/
theorem strDataAppend (a b : String) : (a ++ b).data = a.data ++ b.data := by
  cases a
  cases b
  rfl

/-- A string with a nonempty right concatenand is nonempty. -/
theorem appendNeEmpty (a b : String) (h : b.data ≠ []) : a ++ b ≠ "" := by
  intro hcontra
  have hd := congrArg String.data hcontra
  rw [strDataAppend] at hd
  rcases List.append_eq_nil.mp hd with ⟨_, h2⟩
  exact h h2

/-- C2: if secmail and mail.tm each throw and guerrillamail returns a
shape-valid address, `createEmail` pins guerrillamail, returns that
address, and increments `stats.providerSwitches` by exactly 2. -/
theorem C2_two_throws_then_guerrilla (st : ManagerState) (health : ProviderName → Bool)
    (o : ProviderName → Except JsError CreateResult) (rand : Nat → Nat)
    (p0 : ProviderName) (e1 e2 : JsError) (rr : CreateResult)
    (hcp : st.currentProvider = some p0)
    (h1 : o ProviderName.secmail = Except.error e1)
    (h2 : o ProviderName.mailtm = Except.error e2)
    (h3 : o ProviderName.guerrilla = Except.ok rr)
    (hne : (rr.email != "") = true)
    (hv : isValidEmail rr.email = true) :
    (createEmailM st health o rand).outcome = CreateOutcome.viaProvider ProviderName.guerrilla ∧
    (createEmailM st health o rand).email = rr.email ∧
    (createEmailM st health o rand).state.currentProvider = some ProviderName.guerrilla ∧
    (createEmailM st health o rand).state.providerSwitches = st.providerSwitches + 2 := by
  have hnn : st.currentProvider.isNone = false := by rw [hcp]; rfl
  refine ⟨?_, ?_, ?_, ?_⟩ <;>
    simp [createEmailM, hnn, providerOrder, createWalkAux, h1, h2, h3, hne, hv]

/-- C2 witness: concrete two-throw-then-success run. -/
theorem C2_witness :
    (createEmailM stReady healthAll oracleTwoFail randZero).outcome =
      CreateOutcome.viaProvider ProviderName.guerrilla ∧
    (createEmailM stReady healthAll oracleTwoFail randZero).email = goodResult.email ∧
    (createEmailM stReady healthAll oracleTwoFail randZero).state.currentProvider =
      some ProviderName.guerrilla ∧
    (createEmailM stReady healthAll oracleTwoFail randZero).state.providerSwitches =
      stReady.providerSwitches + 2 :=
  C2_two_throws_then_guerrilla stReady healthAll oracleTwoFail randZero
    ProviderName.secmail errTypeError { name := "Error" } goodResult
    rfl rfl rfl rfl (by decide) (by decide)

/-- C3 counterexample: secmail returns (without throwing) a record
whose address fails `isValidEmail`; the walk falls back to mail.tm,
which succeeds — but `stats.providerSwitches` stays 0, not 1: the
shape-validation failure did NOT increment the provider-switch
counter, contrary to the claim. -/
theorem C3_counterexample :
    (createEmailM stReady healthAll oracleJunkFirst randZero).outcome =
      CreateOutcome.viaProvider ProviderName.mailtm ∧
    (createEmailM stReady healthAll oracleJunkFirst randZero).state.providerSwitches = 0 ∧
    stReady.providerSwitches = 0 ∧
    isValidEmail "not-an-email" = false := by decide

/-- C3 as amended: during the walk, a thrown attempt falls through to
the next adapter AND bumps the provider-switch counter, while a
returned result whose address is falsy or fails the email-shape
predicate falls through WITHOUT touching the counter. -/
theorem C3_fallback_counter_split (st : ManagerState)
    (o : ProviderName → Except JsError CreateResult) (rand : Nat → Nat)
    (p : ProviderName) (rest : List ProviderName) :
    (∀ rr : CreateResult, o p = Except.ok rr →
      (rr.email != "" && isValidEmail rr.email) = false →
      createWalkAux st o rand (p :: rest) =
        { createWalkAux st o rand rest with
          attempts := p :: (createWalkAux st o rand rest).attempts }) ∧
    (∀ e : JsError, o p = Except.error e →
      createWalkAux st o rand (p :: rest) =
        { createWalkAux { st with providerSwitches := st.providerSwitches + 1 } o rand rest with
          attempts := p ::
            (createWalkAux { st with providerSwitches := st.providerSwitches + 1 }
                o rand rest).attempts }) := by
  constructor
  · intro rr hok hbad
    conv_lhs => rw [createWalkAux]
    rw [hok]
    simp [hbad]
  · intro e herr
    conv_lhs => rw [createWalkAux]
    rw [herr]

/-- C3 witness: the two branches at a concrete state and oracle. -/
theorem C3_witness :
    (∀ rr : CreateResult, oracleJunkFirst ProviderName.secmail = Except.ok rr →
      (rr.email != "" && isValidEmail rr.email) = false →
      createWalkAux stReady oracleJunkFirst randZero
          (ProviderName.secmail :: [ProviderName.mailtm]) =
        { createWalkAux stReady oracleJunkFirst randZero [ProviderName.mailtm] with
          attempts := ProviderName.secmail ::
            (createWalkAux stReady oracleJunkFirst randZero [ProviderName.mailtm]).attempts }) ∧
    (∀ e : JsError, oracleJunkFirst ProviderName.secmail = Except.error e →
      createWalkAux stReady oracleJunkFirst randZero
          (ProviderName.secmail :: [ProviderName.mailtm]) =
        { createWalkAux
            { stReady with providerSwitches := stReady.providerSwitches + 1 }
            oracleJunkFirst randZero [ProviderName.mailtm] with
          attempts := ProviderName.secmail ::
            (createWalkAux
                { stReady with providerSwitches := stReady.providerSwitches + 1 }
                oracleJunkFirst randZero [ProviderName.mailtm]).attempts }) :=
  C3_fallback_counter_split stReady oracleJunkFirst randZero
    ProviderName.secmail [ProviderName.mailtm]

/-- C4: when every provider's creation attempt throws, `createEmail`
does not propagate: it synthesizes `login@1secmail.com` locally (the
login has 12 characters and starts with a letter), pins secmail,
dispatches no call beyond the three failed attempts, and leaves the
manager with `isReady() = true`. -/
theorem C4_all_fail_synthetic (st : ManagerState) (health : ProviderName → Bool)
    (o : ProviderName → Except JsError CreateResult) (rand : Nat → Nat)
    (p0 : ProviderName) (e1 e2 e3 : JsError)
    (hcp : st.currentProvider = some p0)
    (h1 : o ProviderName.secmail = Except.error e1)
    (h2 : o ProviderName.mailtm = Except.error e2)
    (h3 : o ProviderName.guerrilla = Except.error e3) :
    (createEmailM st health o rand).outcome = CreateOutcome.synthetic ∧
    (createEmailM st health o rand).email =
      generateRandomString 12 true rand ++ "@" ++ "1secmail.com" ∧
    (generateRandomString 12 true rand).length = 12 ∧
    (∃ c cs, (generateRandomString 12 true rand).data = c :: cs ∧ c.isAlpha = true) ∧
    (createEmailM st health o rand).state.currentProvider = some ProviderName.secmail ∧
    (createEmailM st health o rand).attempts = providerOrder ∧
    isReady (createEmailM st health o rand).state = true := by
  have hnn : st.currentProvider.isNone = false := by rw [hcp]; rfl
  refine ⟨?_, ?_, generateRandomString_length 12 true rand (by decide),
    generateRandomString_head 12 true rand, ?_, ?_, ?_⟩ <;>
    simp [createEmailM, hnn, providerOrder, createWalkAux, h1, h2, h3, isReady, strTruthy]
  exact appendNeEmpty _ "1secmail.com" (by decide)

/-- C4 witness: concrete all-throw run. -/
theorem C4_witness :
    (createEmailM stReady healthAll oracleAllFail randZero).outcome =
      CreateOutcome.synthetic ∧
    (createEmailM stReady healthAll oracleAllFail randZero).email =
      generateRandomString 12 true randZero ++ "@" ++ "1secmail.com" ∧
    (generateRandomString 12 true randZero).length = 12 ∧
    (∃ c cs, (generateRandomString 12 true randZero).data = c :: cs ∧ c.isAlpha = true) ∧
    (createEmailM stReady healthAll oracleAllFail randZero).state.currentProvider =
      some ProviderName.secmail ∧
    (createEmailM stReady healthAll oracleAllFail randZero).attempts = providerOrder ∧
    isReady (createEmailM stReady healthAll oracleAllFail randZero).state = true :=
  C4_all_fail_synthetic stReady healthAll oracleAllFail randZero
    ProviderName.secmail errTypeError errTypeError errTypeError rfl rfl rfl rfl

/-- `initialize` touches only `currentProvider`. -/
theorem initMgr_cache (st : ManagerState) (health : ProviderName → Bool) :
    (initMgr st health).messageCache = st.messageCache := by
  unfold initMgr
  cases providerOrder.find? (fun p => health p) with
  | some p => rfl
  | none =>
    by_cases hn : st.currentProvider.isNone <;> simp [hn]

/-- Walk unfolding: a returned but falsy/shape-invalid result falls
through to the rest of the walk with the state untouched. -/
theorem createWalkAux_skip (st : ManagerState) (o : ProviderName → Except JsError CreateResult)
    (rand : Nat → Nat) (p : ProviderName) (rest : List ProviderName) (rr : CreateResult)
    (hok : o p = Except.ok rr) (hbad : (rr.email != "" && isValidEmail rr.email) = false) :
    createWalkAux st o rand (p :: rest) =
      { createWalkAux st o rand rest with
        attempts := p :: (createWalkAux st o rand rest).attempts } := by
  conv_lhs => rw [createWalkAux]
  rw [hok]
  simp [hbad]

/-- Walk unfolding: a thrown attempt falls through with the
provider-switch counter bumped. -/
theorem createWalkAux_bump (st : ManagerState) (o : ProviderName → Except JsError CreateResult)
    (rand : Nat → Nat) (p : ProviderName) (rest : List ProviderName) (e : JsError)
    (herr : o p = Except.error e) :
    createWalkAux st o rand (p :: rest) =
      { createWalkAux { st with providerSwitches := st.providerSwitches + 1 } o rand rest with
        attempts := p ::
          (createWalkAux { st with providerSwitches := st.providerSwitches + 1 }
              o rand rest).attempts } := by
  conv_lhs => rw [createWalkAux]
  rw [herr]

/-- Walk unfolding: a shape-valid result short-circuits the walk,
pinning the provider and replacing the identity. -/
theorem createWalkAux_success (st : ManagerState)
    (o : ProviderName → Except JsError CreateResult) (rand : Nat → Nat) (p : ProviderName)
    (rest : List ProviderName) (rr : CreateResult)
    (hok : o p = Except.ok rr) (hgood : (rr.email != "" && isValidEmail rr.email) = true) :
    createWalkAux st o rand (p :: rest) =
      { email := rr.email
      , outcome := CreateOutcome.viaProvider p
      , attempts := [p]
      , state := { st with
                   currentProvider := some p
                   email := some rr.email
                   login := some rr.login
                   domain := some rr.domain
                   messages := []
                   messageCache := []
                   emailsCreated := st.emailsCreated + 1 } } := by
  conv_lhs => rw [createWalkAux]
  rw [hok]
  simp [hgood]

/-- A walk that ends on a provider-success path leaves the read cache
empty. -/
theorem createWalkAux_cache_of_success (o : ProviderName → Except JsError CreateResult)
    (rand : Nat → Nat) (p : ProviderName) :
    ∀ (l : List ProviderName) (st : ManagerState),
      (createWalkAux st o rand l).outcome = CreateOutcome.viaProvider p →
      (createWalkAux st o rand l).state.messageCache = [] := by
  intro l
  induction l with
  | nil =>
    intro st h
    simp [createWalkAux] at h
  | cons q rest ih =>
    intro st h
    cases hq : o q with
    | ok r =>
      by_cases hc : (r.email != "" && isValidEmail r.email) = true
      · rw [createWalkAux_success st o rand q rest r hq hc]
      · have hc' : (r.email != "" && isValidEmail r.email) = false := by
          rwa [Bool.not_eq_true] at hc
        rw [createWalkAux_skip st o rand q rest r hq hc'] at h ⊢
        exact ih st h
    | error e =>
      rw [createWalkAux_bump st o rand q rest e hq] at h ⊢
      exact ih _ h

/-- The walk never repopulates an empty read cache (only the success
branch writes it, and it writes `[]`). -/
theorem createWalkAux_cache_preserved (o : ProviderName → Except JsError CreateResult)
    (rand : Nat → Nat) :
    ∀ (l : List ProviderName) (st : ManagerState), st.messageCache = [] →
      (createWalkAux st o rand l).state.messageCache = [] := by
  intro l
  induction l with
  | nil =>
    intro st h
    simp [createWalkAux, h]
  | cons q rest ih =>
    intro st h
    cases hq : o q with
    | ok r =>
      by_cases hc : (r.email != "" && isValidEmail r.email) = true
      · rw [createWalkAux_success st o rand q rest r hq hc]
      · have hc' : (r.email != "" && isValidEmail r.email) = false := by
          rwa [Bool.not_eq_true] at hc
        rw [createWalkAux_skip st o rand q rest r hq hc']
        exact ih st h
    | error e =>
      rw [createWalkAux_bump st o rand q rest e hq]
      exact ih _ h

/-- C1 counterexample: a concrete run violating the claimed invariant.
Starting from a ready manager, `getMessage "7"` caches a detail under
the old identity; then a direct `createEmail()` in which every
provider throws takes the synthetic-fallback path: it replaces the
active identity but does NOT clear `messageCache`, and a subsequent
`getMessage "7"` is served from the cache — a hit cached under a
different, earlier identity. -/
theorem C1_counterexample :
    (getMessageM stReady "7" (Except.ok (some detailNative))).result =
      some (normalizeDetail detailNative "7") ∧
    (createEmailM (getMessageM stReady "7" (Except.ok (some detailNative))).state
        healthAll oracleAllFail randZero).state.email ≠ stReady.email ∧
    (createEmailM (getMessageM stReady "7" (Except.ok (some detailNative))).state
        healthAll oracleAllFail randZero).state.messageCache ≠ [] ∧
    (getMessageM
        (createEmailM (getMessageM stReady "7" (Except.ok (some detailNative))).state
            healthAll oracleAllFail randZero).state
        "7" (Except.error errTypeError)).result =
      some (normalizeDetail detailNative "7") ∧
    (getMessageM
        (createEmailM (getMessageM stReady "7" (Except.ok (some detailNative))).state
            healthAll oracleAllFail randZero).state
        "7" (Except.error errTypeError)).fetched = false := by decide

/-- C1 as amended: the read cache IS cleared whenever `createEmail`
replaces the identity via a provider-success path, and `refreshEmail`
always leaves it cleared (it clears before delegating and no walk
branch repopulates it); only the synthetic-fallback path of a direct
`createEmail` replaces the identity without clearing the cache. -/
theorem C1_cache_cleared_on_success_and_refresh (st : ManagerState)
    (health : ProviderName → Bool) (o : ProviderName → Except JsError CreateResult)
    (rand : Nat → Nat) :
    (∀ p : ProviderName,
      (createEmailM st health o rand).outcome = CreateOutcome.viaProvider p →
      (createEmailM st health o rand).state.messageCache = []) ∧
    (refreshEmailM st health o rand).state.messageCache = [] := by
  constructor
  · intro p hp
    exact createWalkAux_cache_of_success o rand p providerOrder _ hp
  · show (createWalkAux _ o rand providerOrder).state.messageCache = []
    apply createWalkAux_cache_preserved
    by_cases hn :
        ({ st with messages := [], messageCache := [] } : ManagerState).currentProvider.isNone <;>
      simp [hn, initMgr_cache]

/-- C1 witness: with mail.tm succeeding, the direct create leaves the
cache empty; and even a refresh in which every provider throws (so the
walk falls to the synthetic fallback) leaves the cache empty. -/
theorem C1_witness :
    (createEmailM stReady healthAll oracleMailtmOk randZero).state.messageCache = [] ∧
    (refreshEmailM stReady healthAll oracleAllFail randZero).state.messageCache = [] :=
  ⟨(C1_cache_cleared_on_success_and_refresh stReady healthAll oracleMailtmOk randZero).1
      ProviderName.mailtm (by decide),
   (C1_cache_cleared_on_success_and_refresh stReady healthAll oracleAllFail randZero).2⟩

/-- C5: whenever the pinned provider's native listing call throws,
`getMessages` swallows the exception and returns the previously
stored "last known good" summary sequence unchanged (the hypotheses
are exactly the conditions under which the listing call happens). -/
theorem C5_listing_throw_returns_stale (st : ManagerState) (now : Nat) (err : JsError)
    (hfresh : CONFIG.CACHE_DURATION ≤ now - st.lastRefresh)
    (hcp : st.currentProvider.isSome = true)
    (hl : strTruthy st.login = true) (hd : strTruthy st.domain = true) :
    (getMessagesM st now (Except.error err)).result = st.messages ∧
    (getMessagesM st now (Except.error err)).state.messages = st.messages := by
  have h1 : ¬ (now - st.lastRefresh < CONFIG.CACHE_DURATION) := by omega
  have h2 : st.currentProvider.isNone = false := by
    cases hx : st.currentProvider
    · rw [hx] at hcp; exact absurd hcp (by decide)
    · rfl
  constructor <;> simp [getMessagesM, h1, h2, hl, hd]

/-- C5 witness: a throwing listing call at a ready state returns the
stored (empty) summary list. -/
theorem C5_witness :
    (getMessagesM stReady 5000 (Except.error errTypeError)).result = stReady.messages ∧
    (getMessagesM stReady 5000 (Except.error errTypeError)).state.messages = stReady.messages :=
  C5_listing_throw_returns_stale stReady 5000 errTypeError (by decide) rfl (by decide) (by decide)

/-- C8 counterexample: the throttle window is anchored at
`lastRefresh` (the last call that passed the throttle), not at the
previous call.  After a fetch at t=5000 and a throttled call at
t=6999, a third call at t=7001 — only 2ms after the previous call —
nevertheless dispatches a fresh fetch. -/
theorem C8_counterexample :
    (getMessagesM (getMessagesM (getMessagesM stReady 5000 okEmptyList).state
        6999 okEmptyList).state 7001 okEmptyList).fetched = true ∧
    7001 - 6999 < CONFIG.CACHE_DURATION ∧
    (getMessagesM (getMessagesM stReady 5000 okEmptyList).state 6999 okEmptyList).fetched =
      false ∧
    (getMessagesM stReady 5000 okEmptyList).fetched = true := by decide

/-- C8 as amended: a call strictly within `CACHE_DURATION` of
`lastRefresh` returns the stored summaries with no state change and
no provider call; a call at least `CACHE_DURATION` after
`lastRefresh`, with a pinned provider and truthy login and domain,
dispatches a fresh fetch. -/
theorem C8_throttle_anchored_at_lastRefresh (st : ManagerState) (now : Nat)
    (oracle : Except JsError (Option (List NativeMsg))) :
    (now - st.lastRefresh < CONFIG.CACHE_DURATION →
      getMessagesM st now oracle = { result := st.messages, state := st, fetched := false }) ∧
    (CONFIG.CACHE_DURATION ≤ now - st.lastRefresh →
      st.currentProvider.isSome = true →
      strTruthy st.login = true → strTruthy st.domain = true →
      (getMessagesM st now oracle).fetched = true) := by
  constructor
  · intro h
    simp [getMessagesM, h]
  · intro h hcp hl hd
    have h1 : ¬ (now - st.lastRefresh < CONFIG.CACHE_DURATION) := by omega
    have h2 : st.currentProvider.isNone = false := by
      cases hx : st.currentProvider
      · rw [hx] at hcp; exact absurd hcp (by decide)
      · rfl
    cases oracle <;> simp [getMessagesM, h1, h2, hl, hd]

/-- C8 witness: at a ready state, a call 100ms after the last refresh
is served from the store; a call 5000ms after it fetches. -/
theorem C8_witness :
    (getMessagesM stReady 100 okEmptyList =
      { result := stReady.messages, state := stReady, fetched := false }) ∧
    (getMessagesM stReady 5000 okEmptyList).fetched = true :=
  ⟨(C8_throttle_anchored_at_lastRefresh stReady 100 okEmptyList).1 (by decide),
   (C8_throttle_anchored_at_lastRefresh stReady 5000 okEmptyList).2 (by decide) rfl
     (by decide) (by decide)⟩

/-- Cache lookup immediately after insertion finds the inserted
detail. -/
theorem lookupCache_insertCache (c : List (String × MessageDetail)) (k : String)
    (v : MessageDetail) : lookupCache (insertCache c k v) k = some v := by
  simp [lookupCache, insertCache, List.find?]

/-- C9 counterexample: a first `getMessage "5"` whose provider fetch
throws returns `null` and caches nothing, so a second call for the
very same id dispatches a second provider fetch — two calls, two
fetches, refuting "at most one provider fetch". -/
theorem C9_counterexample :
    (getMessageM stReady "5" (Except.error errTypeError)).fetched = true ∧
    (getMessageM stReady "5" (Except.error errTypeError)).result = none ∧
    (getMessageM (getMessageM stReady "5" (Except.error errTypeError)).state "5"
        (Except.error errTypeError)).fetched = true := by decide

/-- C9 as amended: IF the first `getMessage id` call returns a
`MessageDetail`, that detail is stored under `id` and a second call
for the same id returns the identical cached detail without
dispatching any provider fetch (so at most one fetch happens across
the two calls); a first call returning `null` caches nothing. -/
theorem C9_second_call_served_from_cache (st : ManagerState) (messageId : String)
    (o1 o2 : Except JsError (Option NativeDetail)) (d : MessageDetail)
    (h : (getMessageM st messageId o1).result = some d) :
    getMessageM (getMessageM st messageId o1).state messageId o2 =
      { result := some d
        state := (getMessageM st messageId o1).state
        fetched := false } := by
  cases hc : lookupCache st.messageCache messageId with
  | some d0 =>
    have hd : d0 = d := by
      simp [getMessageM, hc] at h
      exact h
    subst hd
    simp [getMessageM, hc]
  | none =>
    cases hcp : st.currentProvider with
    | none => simp [getMessageM, hc, hcp] at h
    | some p =>
      cases o1 with
      | error e => simp [getMessageM, hc, hcp] at h
      | ok od =>
        cases od with
        | none => simp [getMessageM, hc, hcp] at h
        | some m =>
          have hd : normalizeDetail m messageId = d := by
            simp [getMessageM, hc, hcp] at h
            exact h
          simp [getMessageM, hc, hcp, lookupCache_insertCache, hd]

/-- C9 witness: a successful first fetch, then a cache-served second
call (its oracle even throws, and is never consulted). -/
theorem C9_witness :
    getMessageM (getMessageM stReady "7" (Except.ok (some detailNative))).state "7"
        (Except.error errTypeError) =
      { result := some (normalizeDetail detailNative "7")
        state := (getMessageM stReady "7" (Except.ok (some detailNative))).state
        fetched := false } :=
  C9_second_call_served_from_cache stReady "7" (Except.ok (some detailNative))
    (Except.error errTypeError) (normalizeDetail detailNative "7") (by decide)

/-- A JS `||` chain ending in a literal is always present. -/
theorem jsOr_some_isSome (a : Option String) (x : String) : (jsOr a (some x)).isSome = true := by
  cases a with
  | none => rfl
  | some s =>
    unfold jsOr
    split <;> rfl

/-- C10: normalization never loses the subject — a record missing
every known subject field (`subject`, `mail_subject`) is given the
fixed placeholder `'(بدون عنوان)'`, never null/absent (the subject is
present for every record, and `normalizeMessages` is exactly the
per-record map); a record with no resolvable preview source gets the
empty-string preview. -/
theorem C10_missing_subject_placeholder (msg : NativeMsg)
    (hs : msg.subject = none) (hms : msg.mail_subject = none) :
    (normalizeMessage msg).subject = some subjectFallback ∧
    (∀ m : NativeMsg, (normalizeMessage m).subject.isSome = true) ∧
    (∀ msgs : List NativeMsg, normalizeMessages (some msgs) = msgs.map normalizeMessage) ∧
    (msg.textBody = none → msg.mail_excerpt = none →
      (normalizeMessage msg).preview = some "") := by
  refine ⟨?_, ?_, fun _ => rfl, ?_⟩
  · simp [normalizeMessage, hs, hms, jsOr, strTruthy]
  · intro m
    exact jsOr_some_isSome (jsOr m.subject m.mail_subject) subjectFallback
  · intro ht hme
    simp [normalizeMessage, previewOfTextBody, ht, hme, jsOr, strTruthy]

/-- C10 witness: the entirely-absent record gets the placeholder
subject and the empty preview. -/
theorem C10_witness :
    (normalizeMessage emptyNativeMsg).subject = some subjectFallback ∧
    (∀ m : NativeMsg, (normalizeMessage m).subject.isSome = true) ∧
    (∀ msgs : List NativeMsg, normalizeMessages (some msgs) = msgs.map normalizeMessage) ∧
    (emptyNativeMsg.textBody = none → emptyNativeMsg.mail_excerpt = none →
      (normalizeMessage emptyNativeMsg).preview = some "") :=
  C10_missing_subject_placeholder emptyNativeMsg rfl rfl
